import Mathlib

/-!
Verification of the dispatch-and-broadcasting engine of pwkit
(src/pwkit/mathlib.py) against its natural-language specification.

The development shallowly embeds the relevant Python code:

* shapes are lists of natural numbers (Python tuples of nonnegative ints);
* fallible code returns Option or Except (a raised exception becomes a
  none / error value);
* the per-dimension inner loop of broadcast_shapes becomes a fold over the
  dimensions of the other shapes, and the outer loop over dimension indices
  becomes a column-by-column Option-valued map (colsFrom).
-/

/-- One step of the inner loop of broadcast_shapes (mathlib.py lines 70-77):
r is the current value of result[i] and x is padded[j][i].  When x is 1 the
result entry is left alone; otherwise a 1 entry is overwritten with x, an
equal entry is kept, and a conflicting non-1 entry raises the shape-mismatch
ValueError (modelled as none). -/
def combineDim (r x : Nat) : Option Nat :=
  if x ≠ 1 then
    if r = 1 then some x
    else if r ≠ x then none
    else some r
  else some r

/-- The inner j-loop of broadcast_shapes for a fixed dimension index, folding
the dimensions of shapes 1..N-1 into the entry coming from shape 0, stopping
at the first conflict exactly as the raise statement does. -/
def foldCombine (r : Nat) : List Nat → Option Nat
  | [] => some r
  | x :: xs =>
    match combineDim r x with
    | none => none
    | some t => foldCombine t xs

/-- Left-pad a shape with size-1 dimensions up to length m; this is the
expression (1,) * (maxlen - len (s)) + s of mathlib.py line 66. -/
def pad (m : Nat) (s : List Nat) : List Nat :=
  List.replicate (m - s.length) 1 ++ s

/-- The outer i-loop of broadcast_shapes: build the result entry for each
dimension index i = k, k+1, ..., k+n-1 in order, stopping at the first
dimension whose entries conflict (the first raised ValueError). -/
def colsFrom (f : Nat → Option Nat) : Nat → Nat → Option (List Nat)
  | _, 0 => some []
  | i, Nat.succ n =>
    match f i with
    | none => none
    | some d =>
      match colsFrom f (i + 1) n with
      | none => none
      | some rest => some (d :: rest)

/-- Embedding of broadcast_shapes (mathlib.py lines 56-79).  Given the list
of input shapes it computes the shape of their mutual broadcast, or none for
the shape-mismatch ValueError.  np.max of an empty sequence raises, so the
empty input list is also mapped to none.  maxlen is np.max of the lengths,
padded rows are the rows of the np.array of left-padded shapes, and the
result is assembled dimension by dimension. -/
def broadcast_shapes (shapes : List (List Nat)) : Option (List Nat) :=
  match shapes with
  | [] => none
  | s0 :: rest =>
    let maxlen := ((s0 :: rest).map List.length).foldl Nat.max 0
    colsFrom
      (fun i =>
        foldCombine ((pad maxlen s0).getD i 1)
          (rest.map (fun s => (pad maxlen s).getD i 1)))
      0 maxlen

/-- Per-dimension broadcast rule taken from the specification's words: the
broadcast size is 1 only if every input dimension at that position is 1,
otherwise it is the unique non-1 size among the dimensions that are not 1,
and it is an error when two inputs disagree on a non-1 size. -/
def spec_dim (dims : List Nat) : Option Nat :=
  match dims.filter (fun d => decide (d ≠ 1)) with
  | [] => some 1
  | d :: rest => if rest.all (fun e => e == d) then some d else none

/-- Broadcasting as worded by the specification: pad shorter shapes on the
left with size-1 dimensions until all have equal length, then apply the
dimension-by-dimension rule spec_dim.  Stated for comparison with
broadcast_shapes, which is translated from the source. -/
def spec_broadcast (shapes : List (List Nat)) : Option (List Nat) :=
  match shapes with
  | [] => none
  | s0 :: rest =>
    let maxlen := ((s0 :: rest).map List.length).foldl Nat.max 0
    colsFrom
      (fun i => spec_dim ((s0 :: rest).map (fun s => (pad maxlen s).getD i 1)))
      0 maxlen

/-- A capability provider (a MathFunctionLibrary instance) as seen by
get_library_for: either the process-wide numpy_library singleton or one of
the custom library singletons, identified by an index. -/
inductive Library where
  | numpy : Library
  | custom : Nat → Library
deriving DecidableEq

/-- An operand as seen by get_library_for: whether it is an instance of the
numpy_types tuple (numpy scalar types, numpy array classes, list, tuple),
the value of its _pk_mathlib_library_ attribute if any, and its str() and
type name (used only to build the identification error message). -/
structure Operand where
  isNumpyType : Bool
  advertised : Option Library
  str : String
  typeName : String

/-- The accepts method of each library.  NumpyFunctionLibrary.accepts tests
membership in numpy_types (mathlib.py lines 359-360); a custom library's
accepts is arbitrary, supplied by the environment env. -/
def accepts (env : Nat → Operand → Bool) : Library → Operand → Bool
  | Library.numpy, o => o.isNumpyType
  | Library.custom i, o => env i o

/-- The advertised-provider scan of get_library_for (mathlib.py lines
446-458): walk the operands in argument order; an operand with no
_pk_mathlib_library_ attribute is skipped; an advertised library is checked
against every operand (including the advertiser) and is returned as soon as
it accepts them all, otherwise the scan continues. -/
def find_library (env : Nat → Operand → Bool) (objects : List Operand) :
    List Operand → Option Library
  | [] => none
  | o :: rest =>
    match o.advertised with
    | none => find_library env objects rest
    | some lib =>
      if objects.all (fun o2 => accepts env lib o2) then some lib
      else find_library env objects rest

/-- The identification-error message of mathlib.py lines 462-463, naming
every operand and its concrete type. -/
def lib_error_msg (objects : List Operand) : String :=
  "cannot identify math function library for input(s): " ++
    String.intercalate ", "
      (objects.map (fun o => o.str ++ " (" ++ o.typeName ++ ")"))

/-- Embedding of get_library_for (mathlib.py lines 425-463): the pure-numpy
fast path first, then the advertised-provider scan, and otherwise the
identification ValueError. -/
def get_library_for (env : Nat → Operand → Bool) (objects : List Operand) :
    Except String Library :=
  if objects.all (fun o => o.isNumpyType) then Except.ok Library.numpy
  else
    match find_library env objects objects with
    | some lib => Except.ok lib
    | none => Except.error (lib_error_msg objects)

/-- Element dtypes of the numeric backend, enough to distinguish the
np.bool result type forced by the bool_result flag from the promoted
numeric types. -/
inductive DType where
  | bool : DType
  | int : DType
  | float : DType
deriving DecidableEq

/-- Promotion rank used by the backend's dtype combination. -/
def dtypeRank : DType → Nat
  | DType.bool => 0
  | DType.int => 1
  | DType.float => 2

/-- Model of the numeric backend's np.result_type (an external collaborator
per the spec's section 6): dtype promotion takes the higher-ranked of the
two input element types. -/
def result_type (a b : DType) : DType :=
  if dtypeRank a ≤ dtypeRank b then b else a

/-- An array-like value: a shape, an element dtype and flat element data.
The data plays no role in shape reasoning but lets mutation of a
caller-supplied output buffer be observed. -/
structure Arr where
  shape : List Nat
  dtype : DType
  data : List Int
deriving DecidableEq

/-- View-semantics reshape: the shape is replaced and the flat data is
shared.  The adapter only ever reshapes between () and (1,), which is
always size-preserving. -/
def reshape (a : Arr) (sh : List Nat) : Arr :=
  { a with shape := sh }

/-- The provider methods a TidiedFunctionLibrary subclass supplies
(mathlib.py: accepts is not needed here; typeconvert, new_empty,
broadcast_to are the capability methods, and tidyU / tidyB stand for the
tidy_<op> implementations, returning the flat data they write into the
output buffer, which models the out.data[:] = ... assignment). -/
structure Provider where
  typeconvert : Arr → Arr
  new_empty : List Nat → DType → Arr
  broadcast_to : Arr → List Nat → Arr
  tidyU : Arr → Arr → List Int
  tidyB : Arr → Arr → Arr → List Int

/-- Calling conventions of the Common Interface (mathlib.py lines
102-121). -/
inductive Signatures where
  | std_unary : Signatures
  | std_binary : Signatures
  | other_1 : Signatures
deriving DecidableEq

/-- Flag bits of mathlib.py lines 124-149. -/
def Flags.has_numpy_impl : Nat := 1

def Flags.bool_result : Nat := 2

def Flags.ints_only : Nat := 4

/-- A registry entry (mathlib.py lines 152-160). -/
structure FunctionSpecification where
  name : String
  signature : Signatures
  flags : Nat
deriving DecidableEq

set_option maxHeartbeats 1000000 in
/-- The fixed operation registry of mathlib.py lines 167-252, one entry per
Common Interface function, in source order. -/
def common_interface_function_list : List FunctionSpecification := [
  ⟨"absolute", Signatures.std_unary, Flags.has_numpy_impl⟩,
  ⟨"add", Signatures.std_binary, Flags.has_numpy_impl⟩,
  ⟨"arccos", Signatures.std_unary, Flags.has_numpy_impl⟩,
  ⟨"arccosh", Signatures.std_unary, Flags.has_numpy_impl⟩,
  ⟨"arcsin", Signatures.std_unary, Flags.has_numpy_impl⟩,
  ⟨"arcsinh", Signatures.std_unary, Flags.has_numpy_impl⟩,
  ⟨"arctan", Signatures.std_unary, Flags.has_numpy_impl⟩,
  ⟨"arctan2", Signatures.std_unary, Flags.has_numpy_impl⟩,
  ⟨"arctanh", Signatures.std_unary, Flags.has_numpy_impl⟩,
  ⟨"bitwise_and", Signatures.std_binary,
    Flags.has_numpy_impl ||| Flags.ints_only⟩,
  ⟨"bitwise_or", Signatures.std_binary,
    Flags.has_numpy_impl ||| Flags.ints_only⟩,
  ⟨"bitwise_xor", Signatures.std_binary,
    Flags.has_numpy_impl ||| Flags.ints_only⟩,
  ⟨"broadcast_to", Signatures.other_1, Flags.has_numpy_impl⟩,
  ⟨"cbrt", Signatures.std_unary, Flags.has_numpy_impl⟩,
  ⟨"ceil", Signatures.std_unary, Flags.has_numpy_impl⟩,
  ⟨"cmask", Signatures.other_1, Flags.bool_result⟩,
  ⟨"conjugate", Signatures.std_unary, Flags.has_numpy_impl⟩,
  ⟨"copysign", Signatures.std_binary, Flags.has_numpy_impl⟩,
  ⟨"cos", Signatures.std_unary, Flags.has_numpy_impl⟩,
  ⟨"cosh", Signatures.std_unary, Flags.has_numpy_impl⟩,
  ⟨"deg2rad", Signatures.std_unary, Flags.has_numpy_impl⟩,
  ⟨"divide", Signatures.std_binary, Flags.has_numpy_impl⟩,
  ⟨"get_dtype", Signatures.other_1, 0⟩,
  ⟨"get_size", Signatures.other_1, 0⟩,
  ⟨"equal", Signatures.std_binary,
    Flags.has_numpy_impl ||| Flags.bool_result⟩,
  ⟨"exp", Signatures.std_unary, Flags.has_numpy_impl⟩,
  ⟨"exp2", Signatures.std_unary, Flags.has_numpy_impl⟩,
  ⟨"expm1", Signatures.std_unary, Flags.has_numpy_impl⟩,
  ⟨"fabs", Signatures.std_unary, Flags.has_numpy_impl⟩,
  ⟨"floor", Signatures.std_unary, Flags.has_numpy_impl⟩,
  ⟨"floor_divide", Signatures.std_binary, Flags.has_numpy_impl⟩,
  ⟨"fmax", Signatures.std_binary, Flags.has_numpy_impl⟩,
  ⟨"fmin", Signatures.std_binary, Flags.has_numpy_impl⟩,
  ⟨"fmod", Signatures.std_binary, Flags.has_numpy_impl⟩,
  ⟨"frexp", Signatures.other_1, Flags.has_numpy_impl⟩,
  ⟨"greater", Signatures.std_binary,
    Flags.has_numpy_impl ||| Flags.bool_result⟩,
  ⟨"greater_equal", Signatures.std_binary,
    Flags.has_numpy_impl ||| Flags.bool_result⟩,
  ⟨"hypot", Signatures.std_binary, Flags.has_numpy_impl⟩,
  ⟨"invert", Signatures.std_unary, Flags.has_numpy_impl⟩,
  ⟨"isfinite", Signatures.std_unary,
    Flags.has_numpy_impl ||| Flags.bool_result⟩,
  ⟨"isinf", Signatures.std_unary,
    Flags.has_numpy_impl ||| Flags.bool_result⟩,
  ⟨"isnan", Signatures.std_unary,
    Flags.has_numpy_impl ||| Flags.bool_result⟩,
  ⟨"ldexp", Signatures.std_binary, Flags.has_numpy_impl⟩,
  ⟨"left_shift", Signatures.std_binary,
    Flags.has_numpy_impl ||| Flags.ints_only⟩,
  ⟨"less", Signatures.std_binary,
    Flags.has_numpy_impl ||| Flags.bool_result⟩,
  ⟨"less_equal", Signatures.std_binary,
    Flags.has_numpy_impl ||| Flags.bool_result⟩,
  ⟨"log", Signatures.std_unary, Flags.has_numpy_impl⟩,
  ⟨"log10", Signatures.std_unary, Flags.has_numpy_impl⟩,
  ⟨"log1p", Signatures.std_unary, Flags.has_numpy_impl⟩,
  ⟨"log2", Signatures.std_unary, Flags.has_numpy_impl⟩,
  ⟨"logaddexp", Signatures.std_binary, Flags.has_numpy_impl⟩,
  ⟨"logaddexp2", Signatures.std_binary, Flags.has_numpy_impl⟩,
  ⟨"logical_and", Signatures.std_binary,
    Flags.has_numpy_impl ||| Flags.bool_result⟩,
  ⟨"logical_or", Signatures.std_binary,
    Flags.has_numpy_impl ||| Flags.bool_result⟩,
  ⟨"logical_not", Signatures.std_unary,
    Flags.has_numpy_impl ||| Flags.bool_result⟩,
  ⟨"logical_xor", Signatures.std_binary,
    Flags.has_numpy_impl ||| Flags.bool_result⟩,
  ⟨"maximum", Signatures.std_binary, Flags.has_numpy_impl⟩,
  ⟨"minimum", Signatures.std_binary, Flags.has_numpy_impl⟩,
  ⟨"modf", Signatures.other_1, Flags.has_numpy_impl⟩,
  ⟨"multiply", Signatures.std_binary, Flags.has_numpy_impl⟩,
  ⟨"negative", Signatures.std_unary, Flags.has_numpy_impl⟩,
  ⟨"nextafter", Signatures.std_binary, Flags.has_numpy_impl⟩,
  ⟨"not_equal", Signatures.std_binary,
    Flags.has_numpy_impl ||| Flags.bool_result⟩,
  ⟨"power", Signatures.std_binary, Flags.has_numpy_impl⟩,
  ⟨"rad2deg", Signatures.std_unary, Flags.has_numpy_impl⟩,
  ⟨"reciprocal", Signatures.std_unary, Flags.has_numpy_impl⟩,
  ⟨"remainder", Signatures.std_binary, Flags.has_numpy_impl⟩,
  ⟨"repvals", Signatures.std_unary, 0⟩,
  ⟨"reshape", Signatures.other_1, Flags.has_numpy_impl⟩,
  ⟨"right_shift", Signatures.std_binary,
    Flags.has_numpy_impl ||| Flags.ints_only⟩,
  ⟨"rint", Signatures.std_unary, Flags.has_numpy_impl⟩,
  ⟨"shape", Signatures.other_1, Flags.has_numpy_impl⟩,
  ⟨"sign", Signatures.std_unary, Flags.has_numpy_impl⟩,
  ⟨"signbit", Signatures.std_unary,
    Flags.has_numpy_impl ||| Flags.bool_result⟩,
  ⟨"sin", Signatures.std_unary, Flags.has_numpy_impl⟩,
  ⟨"sinh", Signatures.std_unary, Flags.has_numpy_impl⟩,
  ⟨"spacing", Signatures.std_unary, Flags.has_numpy_impl⟩,
  ⟨"sqrt", Signatures.std_unary, Flags.has_numpy_impl⟩,
  ⟨"square", Signatures.std_unary, Flags.has_numpy_impl⟩,
  ⟨"subtract", Signatures.std_binary, Flags.has_numpy_impl⟩,
  ⟨"tan", Signatures.std_unary, Flags.has_numpy_impl⟩,
  ⟨"tanh", Signatures.std_unary, Flags.has_numpy_impl⟩,
  ⟨"true_divide", Signatures.std_binary, Flags.has_numpy_impl⟩,
  ⟨"trunc", Signatures.std_unary, Flags.has_numpy_impl⟩]

/-- Registry lookup: the Python dict access
common_interface_functions[opname] (names are unique, so first-match
lookup agrees with the dict built from the same pairs). -/
def common_interface_functions (n : String) : Option FunctionSpecification :=
  List.find? (fun fs => fs.name = n) common_interface_function_list

/-- What a call of TidiedFunctionLibrary._tidy_std_unary produces, split
into the pieces the claims talk about: the two arguments handed to the
provider's tidy implementation, the final contents of the caller-supplied
out buffer (none when no out was supplied), and the value returned to the
caller. -/
structure TidyUnaryOutcome where
  xPassed : Arr
  outPassed : Arr
  outAfter : Option Arr
  retval : Arr
deriving DecidableEq

/-- Same for _tidy_std_binary. -/
structure TidyBinaryOutcome where
  xPassed : Arr
  yPassed : Arr
  outPassed : Arr
  outAfter : Option Arr
  retval : Arr
deriving DecidableEq

/-- Embedding of TidiedFunctionLibrary._tidy_std_unary (mathlib.py lines
545-594).  Raised exceptions become Except.error; mutation of the output
buffer through reshape views is modelled by rebuilding the written buffer
with the viewing shape.  Note that in the out=None branch the source
allocates the output with the ORIGINAL shape xsh, before-reshape, exactly
as new_empty (xsh, out_dtype) does on line 574. -/
def tidy_std_unary (P : Provider) (opname : String) (x0 : Arr)
    (out0 : Option Arr) : Except String TidyUnaryOutcome :=
  let x := P.typeconvert x0
  let xsh := x.shape
  match out0 with
  | none =>
    let x1 := if xsh = [] then reshape x [1] else x
    match common_interface_functions opname with
    | none => Except.error ("KeyError: " ++ opname)
    | some fs =>
      let out_dtype :=
        if fs.flags &&& Flags.bool_result ≠ 0 then DType.bool else x1.dtype
      let out := P.new_empty xsh out_dtype
      let written := { out with data := P.tidyU x1 out }
      let retval := if xsh = [] then reshape written [] else written
      Except.ok ⟨x1, out, none, retval⟩
  | some outOrig =>
    let outC := P.typeconvert outOrig
    let osh := outC.shape
    match broadcast_shapes [xsh, osh] with
    | none =>
      Except.error "shape mismatch: objects cannot be broadcast to a single shape"
    | some bsh =>
      if osh ≠ bsh then
        Except.error "output parameter must have final broadcasted shape"
      else
        let x1 :=
          if bsh = [] then reshape x [1]
          else if xsh ≠ bsh then P.broadcast_to x bsh
          else x
        let outT := if bsh = [] then reshape outC [1] else outC
        let written := { outT with data := P.tidyU x1 outT }
        let final := { written with shape := osh }
        Except.ok ⟨x1, outT, some final, final⟩

/-- Embedding of TidiedFunctionLibrary._tidy_std_binary (mathlib.py lines
597-645), with the same conventions as tidy_std_unary.  In the out=None
branch the output is allocated with shape bsh, which is the empty shape in
the zero-dimensional case (line 621). -/
def tidy_std_binary (P : Provider) (opname : String) (x0 y0 : Arr)
    (out0 : Option Arr) : Except String TidyBinaryOutcome :=
  let x := P.typeconvert x0
  let xsh := x.shape
  let y := P.typeconvert y0
  let ysh := y.shape
  match out0 with
  | none =>
    match broadcast_shapes [xsh, ysh] with
    | none =>
      Except.error "shape mismatch: objects cannot be broadcast to a single shape"
    | some bsh =>
      let x1 :=
        if bsh = [] then reshape x [1]
        else if xsh ≠ bsh then P.broadcast_to x bsh
        else x
      let y1 :=
        if bsh = [] then reshape y [1]
        else if ysh ≠ bsh then P.broadcast_to y bsh
        else y
      match common_interface_functions opname with
      | none => Except.error ("KeyError: " ++ opname)
      | some fs =>
        let out_dtype :=
          if fs.flags &&& Flags.bool_result ≠ 0 then DType.bool
          else result_type x1.dtype y1.dtype
        let out := P.new_empty bsh out_dtype
        let written := { out with data := P.tidyB x1 y1 out }
        let retval := if bsh = [] then reshape written [] else written
        Except.ok ⟨x1, y1, out, none, retval⟩
  | some outOrig =>
    let outC := P.typeconvert outOrig
    let osh := outC.shape
    match broadcast_shapes [xsh, ysh, osh] with
    | none =>
      Except.error "shape mismatch: objects cannot be broadcast to a single shape"
    | some bsh =>
      if osh ≠ bsh then
        Except.error "output parameter must have final broadcasted shape"
      else
        let x1 :=
          if bsh = [] then reshape x [1]
          else if xsh ≠ bsh then P.broadcast_to x bsh
          else x
        let y1 :=
          if bsh = [] then reshape y [1]
          else if ysh ≠ bsh then P.broadcast_to y bsh
          else y
        let outT := if bsh = [] then reshape outC [1] else outC
        let written := { outT with data := P.tidyB x1 y1 outT }
        let final := { written with shape := osh }
        Except.ok ⟨x1, y1, outT, some final, final⟩

/-- Embedding of MathlibDelegatingObject.__dispatch_binary_inplace
(mathlib.py lines 767-768) once provider resolution has produced a tidied
provider P (as it does for delegating objects whose advertised library is
a TidiedFunctionLibrary): the resolved named operation is invoked as
getattr (library, name) (self, other, self), passing the left operand
again as the output buffer. -/
def dispatch_binary_inplace (P : Provider) (opname : String)
    (self other : Arr) : Except String TidyBinaryOutcome :=
  tidy_std_binary P opname self other (some self)

/-- Flat size of a shape, used by the concrete model provider's
new_empty. -/
def shapeProd (sh : List Nat) : Nat :=
  sh.foldl (fun a b => a * b) 1

/-- A concrete provider in the style of the module's TestWrappedLibrary:
identity typeconvert, zero-filled allocation, view-style broadcast, tidy
negation writing the negated data and tidy addition writing the elementwise
sum. -/
def modelProvider : Provider :=
  { typeconvert := fun a => a
  , new_empty := fun sh dt => ⟨sh, dt, List.replicate (shapeProd sh) 0⟩
  , broadcast_to := fun a sh => { a with shape := sh }
  , tidyU := fun x _ => x.data.map (fun v => -v)
  , tidyB := fun x y _ => List.zipWith (fun u v => u + v) x.data y.data }

/-- The outcome of the out=None branch of tidy_std_unary, written out as a
value (used to state and prove facts about that branch). -/
def tidy_unary_none_outcome (P : Provider) (fs : FunctionSpecification)
    (x0 : Arr) : TidyUnaryOutcome :=
  let x := P.typeconvert x0
  let xsh := x.shape
  let x1 := if xsh = [] then reshape x [1] else x
  let out_dtype :=
    if fs.flags &&& Flags.bool_result ≠ 0 then DType.bool else x1.dtype
  let out := P.new_empty xsh out_dtype
  let written := { out with data := P.tidyU x1 out }
  ⟨x1, out, none, if xsh = [] then reshape written [] else written⟩

/-- The outcome of the out=None branch of tidy_std_binary for broadcast
shape bsh, written out as a value. -/
def tidy_binary_none_outcome (P : Provider) (fs : FunctionSpecification)
    (x0 y0 : Arr) (bsh : List Nat) : TidyBinaryOutcome :=
  let x := P.typeconvert x0
  let xsh := x.shape
  let y := P.typeconvert y0
  let ysh := y.shape
  let x1 :=
    if bsh = [] then reshape x [1]
    else if xsh ≠ bsh then P.broadcast_to x bsh
    else x
  let y1 :=
    if bsh = [] then reshape y [1]
    else if ysh ≠ bsh then P.broadcast_to y bsh
    else y
  let out_dtype :=
    if fs.flags &&& Flags.bool_result ≠ 0 then DType.bool
    else result_type x1.dtype y1.dtype
  let out := P.new_empty bsh out_dtype
  let written := { out with data := P.tidyB x1 y1 out }
  ⟨x1, y1, out, none, if bsh = [] then reshape written [] else written⟩

-- Helper lemmas about the column machinery.

theorem foldCombine_singleton (r x : Nat) :
    foldCombine r [x] = combineDim r x := by
  cases h : combineDim r x <;> simp [foldCombine, h]

theorem foldCombine_pair (r x y : Nat) :
    foldCombine r [x, y] =
      match combineDim r x with
      | none => none
      | some t => combineDim t y := by
  cases h : combineDim r x with
  | none => simp [foldCombine, h]
  | some t =>
    simp only [foldCombine, h]
    exact foldCombine_singleton t y

theorem combineDim_comm (r x : Nat) : combineDim r x = combineDim x r := by
  unfold combineDim
  split_ifs <;> simp_all

theorem colsFrom_congr (f g : Nat → Option Nat) :
    ∀ n i, (∀ j, j < n → f (i + j) = g (i + j)) →
      colsFrom f i n = colsFrom g i n := by
  intro n
  induction n with
  | zero => intro i _; simp [colsFrom]
  | succ n ih =>
    intro i h
    have h0 : f i = g i := by
      have := h 0 (Nat.succ_pos n)
      simpa using this
    have hrest : colsFrom f (i + 1) n = colsFrom g (i + 1) n := by
      apply ih
      intro j hj
      have := h (j + 1) (by omega)
      have hidx : i + (j + 1) = i + 1 + j := by omega
      rw [hidx] at this
      exact this
    simp [colsFrom, h0, hrest]

theorem colsFrom_eq_some (f : Nat → Option Nat) :
    ∀ n i l, colsFrom f i n = some l →
      l.length = n ∧ ∀ j, j < n → f (i + j) = some (l.getD j 0) := by
  intro n
  induction n with
  | zero =>
    intro i l h
    simp [colsFrom] at h
    subst h
    exact ⟨rfl, by intro j hj; omega⟩
  | succ n ih =>
    intro i l h
    simp only [colsFrom] at h
    cases hf : f i with
    | none => rw [hf] at h; exact absurd h (by simp)
    | some d =>
      rw [hf] at h
      cases hc : colsFrom f (i + 1) n with
      | none => rw [hc] at h; exact absurd h (by simp)
      | some rest =>
        rw [hc] at h
        simp at h
        subst h
        obtain ⟨hlen, hcols⟩ := ih (i + 1) rest hc
        constructor
        · simp [hlen]
        · intro j hj
          cases j with
          | zero => simpa using hf
          | succ j =>
            have := hcols j (by omega)
            have hidx : i + (j + 1) = i + 1 + j := by omega
            rw [hidx]
            simpa using this

theorem getD_default_irrel (l : List Nat) :
    ∀ i d e, i < l.length → l.getD i d = l.getD i e := by
  induction l with
  | nil => intro i d e h; simp at h
  | cons a t ih =>
    intro i d e h
    cases i with
    | zero => simp
    | succ i => simp only [List.getD_cons_succ]; exact ih i d e (by simpa using h)

theorem replicate_append_getD (p : Nat) (l : List Nat) :
    ∀ i, (List.replicate p 1 ++ l).getD i 1 =
      if i < p then 1 else l.getD (i - p) 1 := by
  induction p with
  | zero => intro i; simp
  | succ p ih =>
    intro i
    rw [List.replicate_succ]
    cases i with
    | zero => simp
    | succ i =>
      simp only [List.cons_append, List.getD_cons_succ, ih i]
      by_cases h : i < p
      · rw [if_pos h, if_pos (by omega)]
      · rw [if_neg h, if_neg (by omega)]
        congr 1
        omega

theorem pad_getD (m : Nat) (s : List Nat) (i : Nat) :
    (pad m s).getD i 1 =
      if i < m - s.length then 1 else s.getD (i - (m - s.length)) 1 := by
  unfold pad
  exact replicate_append_getD (m - s.length) s i

theorem pad_split (m M : Nat) (s : List Nat) (h1 : s.length ≤ m) (h2 : m ≤ M) :
    pad M s = List.replicate (M - m) 1 ++ pad m s := by
  unfold pad
  rw [← List.append_assoc, ← List.replicate_add]
  congr 2
  omega

theorem pad_self (m : Nat) (s : List Nat) (h : s.length = m) : pad m s = s := by
  unfold pad
  rw [h]
  simp

theorem foldCombine_eq_spec_dim (dims : List Nat) :
    ∀ r, foldCombine r dims = spec_dim (r :: dims) := by
  induction dims with
  | nil =>
    intro r
    by_cases h : r = 1 <;> simp [foldCombine, spec_dim, List.filter, h]
  | cons x xs ih =>
    intro r
    by_cases hx : x = 1
    · subst hx
      have h1 : combineDim r 1 = some r := by simp [combineDim]
      have heq : spec_dim (r :: 1 :: xs) = spec_dim (r :: xs) := by
        simp [spec_dim, List.filter]
      simp only [foldCombine, h1]
      rw [heq]
      exact ih r
    · by_cases hr : r = 1
      · subst hr
        have h1 : combineDim 1 x = some x := by simp [combineDim, hx]
        have : spec_dim (1 :: x :: xs) = spec_dim (x :: xs) := by
          simp [spec_dim, List.filter]
        simp only [foldCombine, h1, this]
        exact ih x
      · by_cases hrx : r = x
        · subst hrx
          have h1 : combineDim r r = some r := by simp [combineDim, hx]
          simp only [foldCombine, h1]
          rw [ih r]
          simp [spec_dim, List.filter, hx, hr]
        · have h1 : combineDim r x = none := by simp [combineDim, hx, hr, hrx]
          simp only [foldCombine, h1]
          simp [spec_dim, List.filter, hx, hr]
          split_ifs with hc
          · exact absurd hc.1.symm hrx
          · rfl

theorem broadcast_shapes_eq_spec (shapes : List (List Nat)) :
    broadcast_shapes shapes = spec_broadcast shapes := by
  cases shapes with
  | nil => rfl
  | cons s0 rest =>
    simp only [broadcast_shapes, spec_broadcast]
    apply colsFrom_congr
    intro j _
    rw [foldCombine_eq_spec_dim]
    simp

theorem bs2_def (a b : List Nat) :
    broadcast_shapes [a, b] =
      colsFrom
        (fun i =>
          combineDim ((pad (Nat.max a.length b.length) a).getD i 1)
            ((pad (Nat.max a.length b.length) b).getD i 1))
        0 (Nat.max a.length b.length) := by
  simp only [broadcast_shapes, List.map_cons, List.map_nil, List.foldl_cons,
    List.foldl_nil, Nat.zero_max]
  apply colsFrom_congr
  intro j _
  simp [foldCombine_singleton]

theorem bs3_def (a b c : List Nat) :
    broadcast_shapes [a, b, c] =
      colsFrom
        (fun i =>
          match
            combineDim
              ((pad (Nat.max (Nat.max a.length b.length) c.length) a).getD i 1)
              ((pad (Nat.max (Nat.max a.length b.length) c.length) b).getD i 1)
          with
          | none => none
          | some t =>
            combineDim t
              ((pad (Nat.max (Nat.max a.length b.length) c.length) c).getD i 1))
        0 (Nat.max (Nat.max a.length b.length) c.length) := by
  simp only [broadcast_shapes, List.map_cons, List.map_nil, List.foldl_cons,
    List.foldl_nil, Nat.zero_max]
  apply colsFrom_congr
  intro j _
  simp [foldCombine_pair]

/-- C1: for every non-empty list of shapes, broadcast_shapes computes
exactly the broadcast described by the specification (left-pad with 1s to a
common length, then dimension by dimension the size is 1 only if every input
dimension is 1 and otherwise the unique non-1 size, failing when two inputs
disagree on a non-1 size); in particular broadcast of (2,3) and (3,) is
(2,3), broadcast of (1,) and (5,) is (5,), and broadcast of (2,) and (3,)
fails. -/
theorem broadcast_shapes_refines_spec :
    (∀ shapes : List (List Nat), shapes ≠ [] →
        broadcast_shapes shapes = spec_broadcast shapes) ∧
      broadcast_shapes [[2, 3], [3]] = some [2, 3] ∧
      broadcast_shapes [[1], [5]] = some [5] ∧
      broadcast_shapes [[2], [3]] = none :=
  ⟨fun shapes _ => broadcast_shapes_eq_spec shapes, by decide, by decide,
    by decide⟩

/-- Witness for broadcast_shapes_refines_spec at the concrete input
[(4,), (2,1)]. -/
theorem broadcast_shapes_refines_spec_witness :
    broadcast_shapes [[4], [2, 1]] = spec_broadcast [[4], [2, 1]] :=
  broadcast_shapes_refines_spec.1 [[4], [2, 1]] (by decide)

/-- C10: broadcast_shapes is commutative in its two-argument form; the two
orders succeed together and produce the same shape (proved as equality of
the two Option results). -/
theorem broadcast_shapes_comm :
    ∀ a b : List Nat,
      ((broadcast_shapes [a, b]).isSome ↔ (broadcast_shapes [b, a]).isSome) ∧
        broadcast_shapes [a, b] = broadcast_shapes [b, a] := by
  intro a b
  have h : broadcast_shapes [a, b] = broadcast_shapes [b, a] := by
    have hmc : Nat.max b.length a.length = Nat.max a.length b.length :=
      Nat.max_comm _ _
    rw [bs2_def, bs2_def, hmc]
    apply colsFrom_congr
    intro j _
    exact combineDim_comm _ _
  exact ⟨by rw [h], h⟩

/-- C9: when the broadcast of a and b succeeds with shape d, broadcasting d
with c gives the same Option result as the three-way broadcast of a, b, c
(associativity of the computed broadcast shape). -/
theorem broadcast_shapes_assoc (a b c d : List Nat)
    (h : broadcast_shapes [a, b] = some d) :
    broadcast_shapes [d, c] = broadcast_shapes [a, b, c] := by
  rw [bs2_def] at h
  obtain ⟨hlen, hcol⟩ := colsFrom_eq_some _ _ _ _ h
  rw [bs2_def, bs3_def, hlen]
  apply colsFrom_congr
  intro j hj
  simp only [Nat.zero_add]
  have hla : a.length ≤ Nat.max a.length b.length := Nat.le_max_left _ _
  have hlb : b.length ≤ Nat.max a.length b.length := Nat.le_max_right _ _
  have hm2M : Nat.max a.length b.length ≤
      Nat.max (Nat.max a.length b.length) c.length := Nat.le_max_left _ _
  have hdM : d.length ≤ Nat.max (Nat.max a.length b.length) c.length := by
    omega
  have hpa := pad_split (Nat.max a.length b.length)
    (Nat.max (Nat.max a.length b.length) c.length) a hla hm2M
  have hpb := pad_split (Nat.max a.length b.length)
    (Nat.max (Nat.max a.length b.length) c.length) b hlb hm2M
  have hpd := pad_split (Nat.max a.length b.length)
    (Nat.max (Nat.max a.length b.length) c.length) d (le_of_eq hlen) hm2M
  rw [pad_self _ _ hlen] at hpd
  by_cases hjP : j < Nat.max (Nat.max a.length b.length) c.length -
      Nat.max a.length b.length
  · rw [hpa, hpb, hpd, replicate_append_getD, replicate_append_getD,
      replicate_append_getD, if_pos hjP, if_pos hjP, if_pos hjP]
    have h11 : combineDim 1 1 = some 1 := by simp [combineDim]
    rw [h11]
  · rw [hpa, hpb, hpd, replicate_append_getD, replicate_append_getD,
      replicate_append_getD, if_neg hjP, if_neg hjP, if_neg hjP]
    have hk : j - (Nat.max (Nat.max a.length b.length) c.length -
        Nat.max a.length b.length) < Nat.max a.length b.length := by omega
    have hcolk := hcol _ hk
    simp only [Nat.zero_add] at hcolk
    rw [hcolk]
    congr 1
    exact (getD_default_irrel d _ _ _ (by omega)).symm

theorem find_library_eq_some (env : Nat → Operand → Bool)
    (objects : List Operand) :
    ∀ l lib, (find_library env objects l = some lib ↔
      ∃ pre o post, l = pre ++ o :: post ∧ o.advertised = some lib ∧
        objects.all (fun o2 => accepts env lib o2) = true ∧
        ∀ o2 ∈ pre, ∀ lib2, o2.advertised = some lib2 →
          objects.all (fun o3 => accepts env lib2 o3) = false) := by
  intro l
  induction l with
  | nil =>
    intro lib
    constructor
    · intro h
      simp [find_library] at h
    · rintro ⟨pre, o, post, hl, -⟩
      exact absurd hl (by simp)
  | cons a t ih =>
    intro lib
    constructor
    · intro h
      simp only [find_library] at h
      cases hadv : a.advertised with
      | none =>
        rw [hadv] at h
        obtain ⟨pre, o, post, hl, h1, h2, h3⟩ := (ih lib).mp h
        refine ⟨a :: pre, o, post, by simp [hl], h1, h2, ?_⟩
        intro o2 ho2 lib2 hlib2
        rcases List.mem_cons.mp ho2 with rfl | ho2
        · rw [hadv] at hlib2
          exact absurd hlib2 (by simp)
        · exact h3 o2 ho2 lib2 hlib2
      | some lib0 =>
        rw [hadv] at h
        simp only [] at h
        by_cases hacc : objects.all (fun o2 => accepts env lib0 o2) = true
        · rw [if_pos hacc] at h
          obtain rfl : lib0 = lib := by simpa using h
          exact ⟨[], a, t, rfl, hadv, hacc, by simp⟩
        · rw [if_neg hacc] at h
          obtain ⟨pre, o, post, hl, h1, h2, h3⟩ := (ih lib).mp h
          refine ⟨a :: pre, o, post, by simp [hl], h1, h2, ?_⟩
          intro o2 ho2 lib2 hlib2
          rcases List.mem_cons.mp ho2 with rfl | ho2
          · rw [hadv] at hlib2
            obtain rfl : lib0 = lib2 := by simpa using hlib2
            exact Bool.eq_false_iff.mpr hacc
          · exact h3 o2 ho2 lib2 hlib2
    · rintro ⟨pre, o, post, hl, h1, h2, h3⟩
      cases pre with
      | nil =>
        simp only [List.nil_append, List.cons.injEq] at hl
        obtain ⟨rfl, rfl⟩ := hl
        simp [find_library, h1, h2]
      | cons p pre2 =>
        simp only [List.cons_append, List.cons.injEq] at hl
        obtain ⟨rfl, rfl⟩ := hl
        simp only [find_library]
        cases hadv : a.advertised with
        | none =>
          exact (ih lib).mpr
            ⟨pre2, o, post, rfl, h1, h2,
              fun o2 ho2 => h3 o2 (by simp [ho2])⟩
        | some lib0 =>
          have hfalse := h3 a (by simp) lib0 hadv
          simp only []
          rw [if_neg (by simp [hfalse])]
          exact (ih lib).mpr
            ⟨pre2, o, post, rfl, h1, h2,
              fun o2 ho2 => h3 o2 (by simp [ho2])⟩

theorem find_library_none (env : Nat → Operand → Bool)
    (objects : List Operand) :
    ∀ l, (∀ o ∈ l, ∀ lib, o.advertised = some lib →
        objects.all (fun o2 => accepts env lib o2) = false) →
      find_library env objects l = none := by
  intro l
  induction l with
  | nil => intro _; simp [find_library]
  | cons a t ih =>
    intro h
    simp only [find_library]
    cases hadv : a.advertised with
    | none => exact ih (fun o ho => h o (by simp [ho]))
    | some lib0 =>
      have hfalse := h a (by simp) lib0 hadv
      simp only []
      rw [if_neg (by simp [hfalse])]
      exact ih (fun o ho => h o (by simp [ho]))

/-- C4: when every operand is an instance of the plain-numeric family
(numpy_types), get_library_for returns the numpy provider immediately, and
the result is unchanged under arbitrary rewriting of every operand's
advertised-provider attribute, for every environment of custom-provider
accepts methods — the fast path never consults _pk_mathlib_library_. -/
theorem get_library_for_numpy_fast_path :
    ∀ (env : Nat → Operand → Bool) (objects : List Operand),
      objects.all (fun o => o.isNumpyType) = true →
        get_library_for env objects = Except.ok Library.numpy ∧
        ∀ adv : Operand → Option Library,
          get_library_for env
              (objects.map (fun o => { o with advertised := adv o })) =
            Except.ok Library.numpy := by
  intro env objects h
  constructor
  · simp [get_library_for, h]
  · intro adv
    have h2 : (objects.map (fun o => { o with advertised := adv o })).all
        (fun o => o.isNumpyType) = true := by
      rw [List.all_map]
      exact h
    simp [get_library_for, h2]

/-- Witness for get_library_for_numpy_fast_path on one numpy-typed operand
that also advertises a custom provider. -/
theorem get_library_for_numpy_fast_path_witness :
    get_library_for (fun _ _ => false)
        [⟨true, some (Library.custom 0), "x", "ndarray"⟩] =
      Except.ok Library.numpy :=
  (get_library_for_numpy_fast_path (fun _ _ => false)
    [⟨true, some (Library.custom 0), "x", "ndarray"⟩] (by decide)).1

/-- C5: when not every operand is plain-numeric, get_library_for returns a
library exactly when it is the advertised library of some operand, that
library accepts every operand, and every earlier operand either advertises
no library or advertises one that rejects some operand — first-found-wins,
skipping advertisers whose library rejects an operand. -/
theorem get_library_for_first_found_wins :
    ∀ (env : Nat → Operand → Bool) (objects : List Operand) (lib : Library),
      objects.all (fun o => o.isNumpyType) = false →
        (get_library_for env objects = Except.ok lib ↔
          ∃ pre o post, objects = pre ++ o :: post ∧
            o.advertised = some lib ∧
            objects.all (fun o2 => accepts env lib o2) = true ∧
            ∀ o2 ∈ pre, ∀ lib2, o2.advertised = some lib2 →
              objects.all (fun o3 => accepts env lib2 o3) = false) := by
  intro env objects lib h
  have hfast : ¬(objects.all (fun o => o.isNumpyType) = true) := by simp [h]
  simp only [get_library_for, if_neg hfast]
  cases hf : find_library env objects objects with
  | none =>
    constructor
    · intro hh
      exact absurd hh (by simp)
    · intro hex
      have hsome := (find_library_eq_some env objects objects lib).mpr hex
      rw [hf] at hsome
      exact absurd hsome (by simp)
  | some lib0 =>
    constructor
    · intro hh
      have heq : lib0 = lib := by simpa using hh
      subst heq
      exact (find_library_eq_some env objects objects lib0).mp hf
    · intro hex
      have hsome := (find_library_eq_some env objects objects lib).mpr hex
      rw [hf] at hsome
      have heq : lib0 = lib := by simpa using hsome
      subst heq
      rfl

/-- Witness for get_library_for_first_found_wins on one non-numpy operand
advertising custom provider 0 under an all-accepting environment. -/
theorem get_library_for_first_found_wins_witness :
    get_library_for (fun _ _ => true)
        [⟨false, some (Library.custom 0), "w", "Widget"⟩] =
      Except.ok (Library.custom 0) ↔
    ∃ pre o post,
      ([⟨false, some (Library.custom 0), "w", "Widget"⟩] : List Operand) =
          pre ++ o :: post ∧
        o.advertised = some (Library.custom 0) ∧
        ([⟨false, some (Library.custom 0), "w", "Widget"⟩] : List Operand).all
            (fun o2 => accepts (fun _ _ => true) (Library.custom 0) o2) =
          true ∧
        ∀ o2 ∈ pre, ∀ lib2, o2.advertised = some lib2 →
          ([⟨false, some (Library.custom 0), "w", "Widget"⟩] :
              List Operand).all
              (fun o3 => accepts (fun _ _ => true) lib2 o3) = false :=
  get_library_for_first_found_wins (fun _ _ => true)
    [⟨false, some (Library.custom 0), "w", "Widget"⟩] (Library.custom 0)
    (by decide)

/-- C6: when the operands are not all plain-numeric and every advertised
provider rejects some operand, get_library_for fails with the
identification ValueError whose message names every operand and its
concrete type. -/
theorem get_library_for_no_provider_error :
    ∀ (env : Nat → Operand → Bool) (objects : List Operand),
      objects.all (fun o => o.isNumpyType) = false →
      (∀ o ∈ objects, ∀ lib, o.advertised = some lib →
          objects.all (fun o2 => accepts env lib o2) = false) →
        get_library_for env objects =
          Except.error (lib_error_msg objects) := by
  intro env objects h1 h2
  have hfast : ¬(objects.all (fun o => o.isNumpyType) = true) := by simp [h1]
  simp only [get_library_for, if_neg hfast,
    find_library_none env objects objects h2]

/-- Witness for get_library_for_no_provider_error on one non-numpy operand
with no advertised provider. -/
theorem get_library_for_no_provider_error_witness :
    get_library_for (fun _ _ => false)
        [⟨false, none, "w", "Widget"⟩] =
      Except.error
        (lib_error_msg [⟨false, none, "w", "Widget"⟩]) :=
  get_library_for_no_provider_error (fun _ _ => false)
    [⟨false, none, "w", "Widget"⟩] (by decide)
    (by
      intro o ho lib hlib
      simp only [List.mem_singleton] at ho
      subst ho
      exact absurd hlib (by simp))

/-- Witness for broadcast_shapes_assoc at a = (2,3), b = (3,), c = (1,),
d = (2,3). -/
theorem broadcast_shapes_assoc_witness :
    broadcast_shapes [[2, 3], [1]] = broadcast_shapes [[2, 3], [3], [1]] :=
  broadcast_shapes_assoc [2, 3] [3] [1] [2, 3] (by decide)

/-- C2: evaluation of the embedded adapter at a zero-dimensional operand
with no output buffer.  The returned value is zero-dimensional as claimed,
but the output buffer handed to the provider's tidy implementation is
new_empty (xsh, ...) with the ORIGINAL shape xsh = (), i.e. outPassed has
shape [] while xPassed was reshaped to [1]: the tidy implementation DOES
receive zero-dimensional data, contradicting the claim and the class's own
docstring (mathlib.py lines 530-537, 556-558).  The same happens in the
binary out=None branch. -/
theorem tidy_unary_zerod_out_not_reshaped :
    tidy_std_unary modelProvider "negative" ⟨[], DType.int, [5]⟩ none =
      Except.ok
        ⟨⟨[1], DType.int, [5]⟩, ⟨[], DType.int, [0]⟩, none,
          ⟨[], DType.int, [-5]⟩⟩ := by
  rfl

/-- C3: for a tidied standard unary or binary operation with a supplied
output buffer whose shape is not the broadcast of the inputs together with
the output, the call returns an error, and the result is unchanged when
the provider's tidy implementations are replaced arbitrarily — so the tidy
implementation is never invoked and nothing is written to the buffer
(errors carry no output state in the embedding). -/
theorem tidy_out_shape_mismatch_fails_before_tidy :
    ∀ (P : Provider) (op : String) (x y out : Arr)
      (tU : Arr → Arr → List Int) (tB : Arr → Arr → Arr → List Int),
      (broadcast_shapes
            [(P.typeconvert x).shape, (P.typeconvert out).shape] ≠
          some (P.typeconvert out).shape →
        (∃ msg, tidy_std_unary P op x (some out) = Except.error msg) ∧
          tidy_std_unary P op x (some out) =
            tidy_std_unary ⟨P.typeconvert, P.new_empty, P.broadcast_to,
              tU, tB⟩ op x (some out)) ∧
      (broadcast_shapes
            [(P.typeconvert x).shape, (P.typeconvert y).shape,
              (P.typeconvert out).shape] ≠
          some (P.typeconvert out).shape →
        (∃ msg, tidy_std_binary P op x y (some out) = Except.error msg) ∧
          tidy_std_binary P op x y (some out) =
            tidy_std_binary ⟨P.typeconvert, P.new_empty, P.broadcast_to,
              tU, tB⟩ op x y (some out)) := by
  intro P op x y out tU tB
  constructor
  · intro h
    cases hb : broadcast_shapes
        [(P.typeconvert x).shape, (P.typeconvert out).shape] with
    | none =>
      refine
        ⟨⟨"shape mismatch: objects cannot be broadcast to a single shape",
          ?_⟩, ?_⟩ <;>
        simp [tidy_std_unary, hb]
    | some bsh =>
      have hne : (P.typeconvert out).shape ≠ bsh := by
        intro he
        exact h (by rw [hb, he])
      refine
        ⟨⟨"output parameter must have final broadcasted shape", ?_⟩, ?_⟩ <;>
        simp [tidy_std_unary, hb, hne]
  · intro h
    cases hb : broadcast_shapes
        [(P.typeconvert x).shape, (P.typeconvert y).shape,
          (P.typeconvert out).shape] with
    | none =>
      refine
        ⟨⟨"shape mismatch: objects cannot be broadcast to a single shape",
          ?_⟩, ?_⟩ <;>
        simp [tidy_std_binary, hb]
    | some bsh =>
      have hne : (P.typeconvert out).shape ≠ bsh := by
        intro he
        exact h (by rw [hb, he])
      refine
        ⟨⟨"output parameter must have final broadcasted shape", ?_⟩, ?_⟩ <;>
        simp [tidy_std_binary, hb, hne]

/-- Witness for tidy_out_shape_mismatch_fails_before_tidy with a (2,)
input against a (3,)-shaped output (unary) and (2,),(2,) inputs against a
(3,)-shaped output (binary). -/
theorem tidy_out_shape_mismatch_fails_before_tidy_witness :
    (∃ msg,
        tidy_std_unary modelProvider "add" ⟨[2], DType.int, [1, 2]⟩
            (some ⟨[3], DType.int, [0, 0, 0]⟩) =
          Except.error msg) ∧
      ∃ msg,
        tidy_std_binary modelProvider "add" ⟨[2], DType.int, [1, 2]⟩
            ⟨[2], DType.int, [3, 4]⟩ (some ⟨[3], DType.int, [0, 0, 0]⟩) =
          Except.error msg :=
  ⟨((tidy_out_shape_mismatch_fails_before_tidy modelProvider "add"
        ⟨[2], DType.int, [1, 2]⟩ ⟨[2], DType.int, [3, 4]⟩
        ⟨[3], DType.int, [0, 0, 0]⟩ modelProvider.tidyU
        modelProvider.tidyB).1 (by decide)).1,
    ((tidy_out_shape_mismatch_fails_before_tidy modelProvider "add"
        ⟨[2], DType.int, [1, 2]⟩ ⟨[2], DType.int, [3, 4]⟩
        ⟨[3], DType.int, [0, 0, 0]⟩ modelProvider.tidyU
        modelProvider.tidyB).2 (by decide)).1⟩

theorem tidy_std_unary_none_eq (P : Provider) (op : String)
    (fs : FunctionSpecification) (x : Arr)
    (hfs : common_interface_functions op = some fs) :
    tidy_std_unary P op x none =
      Except.ok (tidy_unary_none_outcome P fs x) := by
  simp [tidy_std_unary, tidy_unary_none_outcome, hfs]

theorem tidy_std_binary_none_eq (P : Provider) (op : String)
    (fs : FunctionSpecification) (x y : Arr) (bsh : List Nat)
    (hfs : common_interface_functions op = some fs)
    (hb : broadcast_shapes
        [(P.typeconvert x).shape, (P.typeconvert y).shape] = some bsh) :
    tidy_std_binary P op x y none =
      Except.ok (tidy_binary_none_outcome P fs x y bsh) := by
  simp [tidy_std_binary, tidy_binary_none_outcome, hfs, hb]

/-- C7: when no output buffer is supplied, the tidied unary and binary
adapters allocate the output by calling new_empty with element type bool
when the operation's bool_result flag is set, and otherwise with the
operand's own element type (unary) or the promoted combination of the two
operand element types (binary). -/
theorem tidy_allocates_result_dtype :
    ∀ (P : Provider) (op : String) (fs : FunctionSpecification) (x y : Arr),
      common_interface_functions op = some fs →
        (∃ o, tidy_std_unary P op x none = Except.ok o ∧
          o.outPassed =
            P.new_empty (P.typeconvert x).shape
              (if fs.flags &&& Flags.bool_result ≠ 0 then DType.bool
               else o.xPassed.dtype)) ∧
        ∀ bsh,
          broadcast_shapes
              [(P.typeconvert x).shape, (P.typeconvert y).shape] =
            some bsh →
          ∃ o, tidy_std_binary P op x y none = Except.ok o ∧
            o.outPassed =
              P.new_empty bsh
                (if fs.flags &&& Flags.bool_result ≠ 0 then DType.bool
                 else result_type o.xPassed.dtype o.yPassed.dtype) := by
  intro P op fs x y hfs
  constructor
  · exact ⟨tidy_unary_none_outcome P fs x,
      tidy_std_unary_none_eq P op fs x hfs, rfl⟩
  · intro bsh hb
    exact ⟨tidy_binary_none_outcome P fs x y bsh,
      tidy_std_binary_none_eq P op fs x y bsh hfs hb, rfl⟩

/-- Witness for tidy_allocates_result_dtype at the add operation on a
(2,)-shaped int array (unary part of the conjunction). -/
theorem tidy_allocates_result_dtype_witness :
    ∃ o,
      tidy_std_unary modelProvider "add" ⟨[2], DType.int, [1, 2]⟩ none =
          Except.ok o ∧
        o.outPassed =
          modelProvider.new_empty
            (modelProvider.typeconvert ⟨[2], DType.int, [1, 2]⟩).shape
            (if (⟨"add", Signatures.std_binary, Flags.has_numpy_impl⟩ :
                    FunctionSpecification).flags &&&
                  Flags.bool_result ≠ 0 then
              DType.bool
             else o.xPassed.dtype) :=
  (tidy_allocates_result_dtype modelProvider "add"
    ⟨"add", Signatures.std_binary, Flags.has_numpy_impl⟩
    ⟨[2], DType.int, [1, 2]⟩ ⟨[2], DType.int, [3, 4]⟩ (by decide)).1

/-- C8: a successful in-place binary dispatch passes the left operand as
the output buffer; the value returned is exactly the left operand's buffer
after the tidy write (same shape as the left operand, data written by the
provider's tidy implementation), the final buffer state and the return
value are the same object, and the result does not depend on the
provider's allocator, so no new result container is allocated. -/
theorem inplace_dispatch_mutates_left_operand :
    ∀ (P : Provider) (op : String) (self other : Arr)
      (o : TidyBinaryOutcome),
      dispatch_binary_inplace P op self other = Except.ok o →
        o.retval = ⟨(P.typeconvert self).shape, o.outPassed.dtype,
            P.tidyB o.xPassed o.yPassed o.outPassed⟩ ∧
          o.outAfter = some o.retval ∧
          ∀ ne : List Nat → DType → Arr,
            dispatch_binary_inplace
                ⟨P.typeconvert, ne, P.broadcast_to, P.tidyU, P.tidyB⟩ op
                self other = Except.ok o := by
  intro P op self other o h
  simp only [dispatch_binary_inplace, tidy_std_binary] at h
  split at h
  next hb => exact absurd h (by simp)
  next bsh hb =>
    split at h
    next hne => exact absurd h (by simp)
    next hne =>
      injection h with h2
      subst h2
      refine ⟨rfl, rfl, ?_⟩
      intro ne
      simp [dispatch_binary_inplace, tidy_std_binary, hb, hne]

/-- Witness for inplace_dispatch_mutates_left_operand: in-place add of two
(2,)-shaped int arrays returns the mutated left-operand buffer. -/
theorem inplace_dispatch_mutates_left_operand_witness :
    ∃ o,
      dispatch_binary_inplace modelProvider "add" ⟨[2], DType.int, [1, 2]⟩
          ⟨[2], DType.int, [3, 4]⟩ = Except.ok o ∧
        o.outAfter = some o.retval :=
  ⟨⟨⟨[2], DType.int, [1, 2]⟩, ⟨[2], DType.int, [3, 4]⟩,
      ⟨[2], DType.int, [1, 2]⟩, some ⟨[2], DType.int, [4, 6]⟩,
      ⟨[2], DType.int, [4, 6]⟩⟩,
    by rfl,
    (inplace_dispatch_mutates_left_operand modelProvider "add"
        ⟨[2], DType.int, [1, 2]⟩ ⟨[2], DType.int, [3, 4]⟩
        ⟨⟨[2], DType.int, [1, 2]⟩, ⟨[2], DType.int, [3, 4]⟩,
          ⟨[2], DType.int, [1, 2]⟩, some ⟨[2], DType.int, [4, 6]⟩,
          ⟨[2], DType.int, [4, 6]⟩⟩ (by rfl)).2.1⟩
